import Mathlib

/-!
# Verification of the RAG query/ingestion pipeline

Shallow embedding, in Lean 4, of the core of the `ocr-processing-llm`
repository: per-session conversational memory (`core/memory.py`), the RAG
query orchestrator and its streaming variant (`services/rag_service.py`),
the document ingestion service (`services/document_service.py`), the PDF
scanned-document heuristic and OCR fallback (`core/pdf_processor.py`,
`core/ocr.py`), and the two background-job polling endpoints
(`api/routes/chat.py`, `api/routes/documents.py`).

Conventions of the embedding:
* Python dictionaries become association lists (`lookupA`, `setA`, `eraseA`).
* Python exceptions become the `Err` sum type; fallible functions return
  `Except Err _`.
* External collaborators (the langchain PDF loader, the tesseract OCR
  engine, the embedding model, the language model) become record fields of
  an environment (`FileEnv`, `RagEnv`) holding oracle functions, since the
  repository treats them as black boxes.
* An async generator becomes a function returning the list of events it
  emits, each paired with the memory state at the moment of emission,
  together with the final state and the exception escaping the generator
  (if any).
-/

/-! ## Association-list helpers (Python `dict` model) -/

/-- Look a key up in an association list (first match). -/
def lookupA {α : Type} : List (String × α) → String → Option α
  | [], _ => none
  | p :: rest, key => if p.1 = key then some p.2 else lookupA rest key

/-- Python `d[key] = v`: replace the value of an existing key in place,
append a fresh binding otherwise. -/
def setA {α : Type} (l : List (String × α)) (key : String) (v : α) :
    List (String × α) :=
  if (lookupA l key).isSome then
    l.map (fun p => if p.1 = key then (key, v) else p)
  else
    l ++ [(key, v)]

/-- Python `del d[key]`: remove the binding of a key. -/
def eraseA {α : Type} (l : List (String × α)) (key : String) :
    List (String × α) :=
  l.filter (fun p => decide (p.1 ≠ key))

/-! ## Data model -/

/-- Document metadata: a string-keyed dictionary (values rendered as
strings; no claim inspects a metadata value structurally). -/
abbrev Metadata := List (String × String)

/-- `langchain_core.documents.Document`: page content plus metadata. -/
structure Doc where
  page_content : String
  metadata : Metadata
deriving DecidableEq

/-- Python `dict.update` restricted to a single key. -/
def dictSet (m : Metadata) (k v : String) : Metadata :=
  if (lookupA m k).isSome then
    m.map (fun p => if p.1 = k then (k, v) else p)
  else
    m ++ [(k, v)]

/-- Python `dict.update` with a literal dictionary argument. -/
def dictUpdate (m : Metadata) (kvs : List (String × String)) : Metadata :=
  kvs.foldl (fun acc p => dictSet acc p.1 p.2) m

/-- The Python exceptions raised or propagated by the embedded code. -/
inductive Err where
  /-- `FileNotFoundError` -/
  | fileNotFound (message : String)
  /-- `ValueError` -/
  | valueError (message : String)
  /-- any failure of an external capability (loader, OCR engine,
  embedding model, language model): the repository only re-raises these -/
  | upstream (message : String)
deriving DecidableEq

/-- Python `str(e)` on an exception. -/
def errMsg : Err → String
  | .fileNotFound m => m
  | .valueError m => m
  | .upstream m => m

/-! ## Session memory (`core/memory.py`, class `MemoryManager`) -/

/-- A conversation turn tag (`HumanMessage` / `AIMessage` / system). -/
inductive Role where
  | user
  | assistant
  | system
deriving DecidableEq

/-- One message of a transcript or prompt. -/
structure Msg where
  role : Role
  content : String
deriving DecidableEq

/-- `MemoryManager._histories`: session id to ordered transcript. -/
abbrev MemoryState := List (String × List Msg)

/-- The transcript currently stored for a session (empty if absent). -/
def histOf (st : MemoryState) (session_id : String) : List Msg :=
  (lookupA st session_id).getD []

/-- `MemoryManager.get_history`: lazily create the session on first
access; returns the new manager state and the session transcript. -/
def MemoryManager.get_history (st : MemoryState) (session_id : String) :
    MemoryState × List Msg :=
  match lookupA st session_id with
  | some h => (st, h)
  | none => (setA st session_id [], [])

/-- `MemoryManager.add_user_message`. -/
def MemoryManager.add_user_message (st : MemoryState)
    (session_id message : String) : MemoryState :=
  let hist := MemoryManager.get_history st session_id
  setA hist.1 session_id (hist.2 ++ [⟨Role.user, message⟩])

/-- `MemoryManager.add_ai_message`. -/
def MemoryManager.add_ai_message (st : MemoryState)
    (session_id message : String) : MemoryState :=
  let hist := MemoryManager.get_history st session_id
  setA hist.1 session_id (hist.2 ++ [⟨Role.assistant, message⟩])

/-- `MemoryManager.clear_history`: empty the transcript of an existing
session (the key stays), do nothing when the session is unknown. -/
def MemoryManager.clear_history (st : MemoryState) (session_id : String) :
    MemoryState :=
  if (lookupA st session_id).isSome then setA st session_id [] else st

/-- `MemoryManager.clear_all`: the Python function computes
`count = len(self._histories)` but only logs it and falls off the end of
the body, so it returns `None`; the first component models the returned
value (`Option Nat` covering both `None` and an integer). -/
def MemoryManager.clear_all (st : MemoryState) : Option Nat × MemoryState :=
  let count := st.length
  let _ := count
  (none, [])

/-- `MemoryManager.get_session_count`. -/
def MemoryManager.get_session_count (st : MemoryState) : Nat :=
  st.length

/-- Response body of `DELETE /chat/memory` (`clear_all_memory` in
`api/routes/chat.py`): reads the session count, then clears. -/
structure ClearAllBody where
  status : String
  message : String
deriving DecidableEq

/-- `clear_all_memory` route handler. -/
def clear_all_memory (st : MemoryState) : ClearAllBody × MemoryState :=
  let count := MemoryManager.get_session_count st
  let cleared := MemoryManager.clear_all st
  (⟨"success", "Cleared " ++ toString count ++ " session histories"⟩,
    cleared.2)

/-! ## RAG orchestrator (`services/rag_service.py`, class `RAGService`) -/

/-- One retrieved source as returned to the caller. -/
structure Source where
  content : String
  metadata : Metadata
deriving DecidableEq

/-- The non-streaming query result dictionary. -/
structure QueryResult where
  answer : String
  sources : List Source
  session_id : String
deriving DecidableEq

/-- The external capabilities `RAGService` consumes, plus the relevant
configuration value (`config.py` is not under `src/`; `retrieval_top_k`
is the configured default top-k read by the service). Retrieval and
generation are oracles that may fail; `llm_stream` returns the tokens the
model emitted before either completing (`none`) or failing mid-stream
(`some e`). -/
structure RagEnv where
  retrieval_top_k : Int
  similarity_search : String → Int → Except Err (List Doc)
  llm_invoke : List Msg → Except Err String
  llm_stream : List Msg → List String × Option Err

/-- Python `k or default` on `k : Optional[int]`: `None` and `0` are
falsy, every other integer is returned unchanged. -/
def pyOrInt (k : Option Int) (default : Int) : Int :=
  match k with
  | none => default
  | some n => if n = 0 then default else n

/-- `RAGService._format_docs`: join page contents with a blank line. -/
def format_docs (docs : List Doc) : String :=
  String.intercalate "\n\n" (docs.map (fun d => d.page_content))

/-- The system message of the RAG prompt template with `context`
substituted. -/
def systemPrompt (context : String) : String :=
  "You are a helpful AI assistant. Use the following context to answer " ++
  "the user's question. If you cannot answer based on the context, say " ++
  "so.\n\nContext: " ++ context

/-- `self.prompt.format_messages(...)`: system message, then the chat
history, then the question as the newest user turn. -/
def format_messages (context : String) (chat_history : List Msg)
    (question : String) : List Msg :=
  ⟨Role.system, systemPrompt context⟩ :: chat_history ++
    [⟨Role.user, question⟩]

/-- `RAGService.query`: retrieve, read history, assemble the prompt,
generate, then append the user and assistant turns. Returns the result
(or the propagated exception) together with the memory state. -/
def RAGService.query (env : RagEnv) (st : MemoryState) (question : String)
    (session_id : String) (k : Option Int) :
    Except Err QueryResult × MemoryState :=
  let kEff := pyOrInt k env.retrieval_top_k
  match env.similarity_search question kEff with
  | .error e => (.error e, st)
  | .ok docs =>
    let context := format_docs docs
    let hist := MemoryManager.get_history st session_id
    let messages := format_messages context hist.2 question
    match env.llm_invoke messages with
    | .error e => (.error e, hist.1)
    | .ok answer =>
      let st2 := MemoryManager.add_user_message hist.1 session_id question
      let st3 := MemoryManager.add_ai_message st2 session_id answer
      (.ok ⟨answer, docs.map (fun d => ⟨d.page_content, d.metadata⟩),
        session_id⟩, st3)

/-- The events yielded by `RAGService.query_stream`. -/
inductive StreamEvent where
  | sources (sources : List Source) (session_id : String)
  | token (token : String)
  | done (session_id : String)
  | error (error : String)
deriving DecidableEq

/-- `RAGService.query_stream`. The async generator is embedded as the
list of the events it yields, each paired with the memory state at the
moment the event is emitted, together with the final memory state and the
exception escaping the generator (the source re-raises after yielding its
`error` event, so a failing run both emits the event and propagates the
exception to the consuming route). -/
def RAGService.query_stream (env : RagEnv) (st : MemoryState)
    (question : String) (session_id : String) (k : Option Int) :
    List (StreamEvent × MemoryState) × MemoryState × Option Err :=
  let kEff := pyOrInt k env.retrieval_top_k
  match env.similarity_search question kEff with
  | .error e => ([(.error (errMsg e), st)], st, some e)
  | .ok docs =>
    let sources := docs.map (fun d => (⟨d.page_content, d.metadata⟩ : Source))
    let context := format_docs docs
    let hist := MemoryManager.get_history st session_id
    let messages := format_messages context hist.2 question
    let streamed := env.llm_stream messages
    let tokenEvents := streamed.1.map
      (fun t => ((StreamEvent.token t : StreamEvent), hist.1))
    match streamed.2 with
    | some e =>
      ((.sources sources session_id, st) :: tokenEvents ++
        [(.error (errMsg e), hist.1)], hist.1, some e)
    | none =>
      let full_response := String.join streamed.1
      let st2 := MemoryManager.add_user_message hist.1 session_id question
      let st3 := MemoryManager.add_ai_message st2 session_id full_response
      ((.sources sources session_id, st) :: tokenEvents ++
        [(.done session_id, st3)], st3, none)

/-- The tokens carried by the `token` events of a stream trace, in
emission order. -/
def streamTokens (trace : List (StreamEvent × MemoryState)) : List String :=
  trace.filterMap (fun p =>
    match p.1 with
    | .token t => some t
    | _ => none)

/-- `chat_stream` route handler (`api/routes/chat.py`): forwards every
event of `RAGService.query_stream` to the client and, when the generator
raises, catches the exception and yields one more `error` event of its
own. -/
def chat_stream_events (env : RagEnv) (st : MemoryState) (question : String)
    (session_id : String) (k : Option Int) : List StreamEvent :=
  let run := RAGService.query_stream env st question session_id k
  let events := run.1.map Prod.fst
  match run.2.2 with
  | none => events
  | some e => events ++ [.error (errMsg e)]

/-- Whether an event is terminal (`done` or `error`). -/
def isTerminal : StreamEvent → Bool
  | .done _ => true
  | .error _ => true
  | _ => false

/-- The number of terminal events of an event sequence. -/
def countTerminal (events : List StreamEvent) : Nat :=
  (events.filter isTerminal).length

/-! ## PDF and OCR processing (`core/pdf_processor.py`, `core/ocr.py`) -/

/-- The file-system and extraction collaborators consumed by
`PDFProcessor`, `OCRProcessor` and `DocumentService`:
`exists_file` is `os.path.exists`; `pypdf_load` is `PyPDFLoader.load`
(direct text extraction, one `Doc` per page); `pdf2image_available`
records whether `import pdf2image` succeeds inside `_process_with_ocr`;
`ocr_pages` is `pdf2image.convert_from_path` followed by
`pytesseract.image_to_string` on each page image (one raw string per
page); `image_ocr` is `PIL.Image.open` followed by
`pytesseract.image_to_string` on a single image file (a missing image
file surfaces as this oracle failing, since `Image.open` raises). -/
structure FileEnv where
  exists_file : String → Bool
  pypdf_load : String → Except Err (List Doc)
  pdf2image_available : Bool
  ocr_pages : String → Except Err (List String)
  image_ocr : String → Except Err String

/-- `pathlib.Path(p).name`: the last path component. -/
def pathName (p : String) : String :=
  String.mk (p.toList.foldl (fun acc c => if c = '/' then [] else acc ++ [c]) [])

/-- `pathlib.Path(p).suffix`: the extension of the last component,
including the dot; empty when the component has no dot or only a
leading one. -/
def pathSuffix (p : String) : String :=
  let name := (pathName p).toList
  let base := name.drop 1
  if base.contains '.' then
    String.mk ('.' :: (base.reverse.takeWhile (fun c => c ≠ '.')).reverse)
  else ""

/-- Python `str.lower` (over the ASCII extensions this system meets). -/
def lowerString (s : String) : String :=
  String.mk (s.toList.map Char.toLower)

/-- `PDFProcessor._is_scanned_pdf`: an empty page list is classified as
scanned outright; otherwise the average extracted-text length over the
first `min(3, pageCount)` pages is compared against the threshold 100
(Python float division modelled exactly over `ℚ`). -/
def PDFProcessor.is_scanned_pdf (documents : List Doc) : Bool :=
  if documents.isEmpty then
    true
  else
    let sample_pages := documents.take (min 3 documents.length)
    let avg_length : ℚ :=
      ((sample_pages.map (fun d => (d.page_content.length : ℚ))).sum) /
        (sample_pages.length : ℚ)
    decide (avg_length < 100)

/-- The metadata stamped onto every page by
`PDFProcessor.extract_text_from_pdf` after extraction. -/
def addPdfMetadata (pdf_path : String) (documents : List Doc) : List Doc :=
  let total := documents.length
  documents.enum.map (fun p =>
    { p.2 with
      metadata := dictUpdate p.2.metadata
        [("source", pdf_path), ("filename", pathName pdf_path),
         ("page", toString (p.1 + 1)), ("total_pages", toString total),
         ("type", "pdf")] })

/-- `PDFProcessor._process_with_ocr`: when the `pdf2image` import fails
the exception is caught and an empty document list is returned ("Falling
back to empty documents"); any other OCR failure is re-raised. On success
each page image yields a `Doc` with the stripped OCR text and OCR
metadata. -/
def PDFProcessor.process_with_ocr (env : FileEnv) (pdf_path : String) :
    Except Err (List Doc) :=
  if env.pdf2image_available = false then
    .ok []
  else
    match env.ocr_pages pdf_path with
    | .error e => .error e
    | .ok texts =>
      let total := texts.length
      .ok (texts.enum.map (fun p =>
        ({ page_content := p.2.trim,
           metadata :=
             [("source", pdf_path), ("filename", pathName pdf_path),
              ("page", toString (p.1 + 1)), ("total_pages", toString total),
              ("type", "pdf_ocr")] } : Doc)))

/-- `PDFProcessor.extract_text_from_pdf`: missing file check, direct
extraction, scanned-PDF check deciding the OCR fallback, then metadata
stamping of whichever page list resulted. -/
def PDFProcessor.extract_text_from_pdf (env : FileEnv) (pdf_path : String)
    (use_ocr : Bool) : Except Err (List Doc) :=
  if env.exists_file pdf_path = false then
    .error (.fileNotFound ("PDF file not found: " ++ pdf_path))
  else
    match env.pypdf_load pdf_path with
    | .error e => .error e
    | .ok documents =>
      if use_ocr || PDFProcessor.is_scanned_pdf documents then
        match PDFProcessor.process_with_ocr env pdf_path with
        | .error e => .error e
        | .ok ocr_documents => .ok (addPdfMetadata pdf_path ocr_documents)
      else
        .ok (addPdfMetadata pdf_path documents)

/-- `PDFProcessor.process_pdf_to_documents`: extraction plus optional
caller metadata merged into every page. -/
def PDFProcessor.process_pdf_to_documents (env : FileEnv)
    (pdf_path : String) (use_ocr : Bool) (metadata : Option Metadata) :
    Except Err (List Doc) :=
  match PDFProcessor.extract_text_from_pdf env pdf_path use_ocr with
  | .error e => .error e
  | .ok documents =>
    match metadata with
    | none => .ok documents
    | some m =>
      .ok (documents.map (fun d => { d with metadata := dictUpdate d.metadata m }))

/-- `OCRProcessor.supported_formats`. -/
def OCRProcessor.supported_formats : List String :=
  [".png", ".jpg", ".jpeg", ".tiff", ".bmp"]

/-- `OCRProcessor.is_supported`. -/
def OCRProcessor.is_supported (file_path : String) : Bool :=
  OCRProcessor.supported_formats.contains (lowerString (pathSuffix file_path))

/-- `OCRProcessor.extract_text_from_image`: format check, then the OCR
oracle; the extracted text is stripped. -/
def OCRProcessor.extract_text_from_image (env : FileEnv)
    (image_path : String) : Except Err String :=
  if OCRProcessor.is_supported image_path = false then
    .error (.valueError ("Unsupported file format: " ++ pathSuffix image_path))
  else
    match env.image_ocr image_path with
    | .error e => .error e
    | .ok text => .ok text.trim

/-- `OCRProcessor.process_image_to_document`. -/
def OCRProcessor.process_image_to_document (env : FileEnv)
    (image_path : String) (metadata : Option Metadata) : Except Err Doc :=
  match OCRProcessor.extract_text_from_image env image_path with
  | .error e => .error e
  | .ok text =>
    let base : Metadata :=
      [("source", image_path), ("filename", pathName image_path),
       ("type", "ocr"), ("format", pathSuffix image_path)]
    .ok ⟨text, dictUpdate base (metadata.getD [])⟩

/-! ## Document ingestion (`services/document_service.py`) -/

/-- The vector store entries (chunk text plus metadata). -/
abbrev VectorStore := List Doc

/-- Modelled from the spec: `core/vectorstore.py` (`VectorStoreManager`)
is not under `src/`; per the Vector Index contract of the spec, `insert`
appends the given chunk entries to the index. -/
def VectorStoreManager.add_documents (vs : VectorStore) (docs : List Doc) :
    VectorStore :=
  vs ++ docs

/-- Modelled from the spec: `core/vectorstore.py` (`VectorStoreManager`)
is not under `src/`; `add_texts` inserts one entry per caller text,
pairing each text with its metadata when a metadata list is supplied. -/
def VectorStoreManager.add_texts (vs : VectorStore) (texts : List String)
    (metadatas : Option (List Metadata)) : VectorStore :=
  vs ++ texts.enum.map (fun p =>
    ({ page_content := p.2, metadata := (metadatas.getD []).getD p.1 [] } : Doc))

/-- `langchain.text_splitter.RecursiveCharacterTextSplitter.split_documents`
(an external collaborator), abstracted over the character splitter: every
document text is split and each resulting chunk carries the document's
metadata. -/
def split_documents (split : String → List String) (documents : List Doc) :
    List Doc :=
  documents.flatMap (fun d =>
    (split d.page_content).map (fun t => ({ page_content := t, metadata := d.metadata } : Doc)))

/-- Modelled from the spec: the Chunker contract (`split(text, chunkSize,
overlap)`) with consecutive windows of up to `chunkSize` characters, each
subsequent window starting `chunkSize - overlap` characters after the
previous one; the source delegates chunking to
`RecursiveCharacterTextSplitter`, an external langchain collaborator
whose sizes come from `config.py`, which is not under `src/`. The spec's
natural-boundary preference only applies when a boundary exists inside
the lookback window, so on boundary-free text every conforming chunker
performs these hard cuts; that is the only case this development
evaluates the chunker on. -/
def windowSplitAux (chunkSize step : Nat) : Nat → List Char → List (List Char)
  | 0, cs => [cs]
  | fuel + 1, cs =>
    if cs.length ≤ chunkSize then [cs]
    else cs.take chunkSize :: windowSplitAux chunkSize step fuel (cs.drop step)

/-- The Chunker contract entry point (see `windowSplitAux`). -/
def windowSplit (chunkSize overlap : Nat) (text : String) : List String :=
  (windowSplitAux chunkSize (chunkSize - overlap) text.length text.toList).map
    (fun cs => String.mk cs)

/-- `DocumentService.add_texts`: hands the raw texts to the vector store
and returns `len(texts)`; the service-level text splitter is not
involved. -/
def DocumentService.add_texts (vs : VectorStore) (texts : List String)
    (metadatas : Option (List Metadata)) : Nat × VectorStore :=
  (texts.length, VectorStoreManager.add_texts vs texts metadatas)

/-- `DocumentService.process_documents`: split the documents into chunks
with the text splitter, add the chunks to the vector store, and return
the chunk count. -/
def DocumentService.process_documents (split : String → List String)
    (vs : VectorStore) (documents : List Doc) : Nat × VectorStore :=
  let chunks := split_documents split documents
  (chunks.length, VectorStoreManager.add_documents vs chunks)

/-- `DocumentService.process_file`: dispatch on the lowercased file
extension (PDF extraction, image OCR, or `ValueError` for anything
else), then chunk and index the resulting documents. -/
def DocumentService.process_file (env : FileEnv)
    (split : String → List String) (vs : VectorStore) (file_path : String)
    (use_ocr : Bool) : Except Err (Nat × VectorStore) :=
  let file_ext := lowerString (pathSuffix file_path)
  let documentsE : Except Err (List Doc) :=
    if file_ext = ".pdf" then
      PDFProcessor.process_pdf_to_documents env file_path use_ocr none
    else if [".png", ".jpg", ".jpeg", ".tiff", ".bmp"].contains file_ext then
      match OCRProcessor.process_image_to_document env file_path none with
      | .error e => .error e
      | .ok document => .ok [document]
    else
      .error (.valueError ("Unsupported file type: " ++ file_ext))
  match documentsE with
  | .error e => .error e
  | .ok documents => .ok (DocumentService.process_documents split vs documents)

/-! ## Background jobs and polling (`api/routes/chat.py`,
`api/routes/documents.py`) -/

/-- A record of `_query_results` in `api/routes/chat.py`: the chat submit
path never pre-registers an entry, so only terminal records exist. -/
inductive QueryRecord where
  | completed (result : QueryResult)
  | errored (error : String)
deriving DecidableEq

/-- `_query_results`: request id to terminal record. -/
abbrev QueryStore := List (String × QueryRecord)

/-- A record of `_upload_results` in `api/routes/documents.py`: the
upload submit path registers `processing` before scheduling the work. -/
inductive UploadRecord where
  | processing
  | success (documents_added chunks_created : Nat) (message : String)
  | errored (message : String)
deriving DecidableEq

/-- `_upload_results`: upload id to record. -/
abbrev UploadStore := List (String × UploadRecord)

/-- The JSON body (plus HTTP status code) returned by
`GET /chat/status/\x7brequest_id\x7d`. -/
structure QueryStatusBody where
  status_code : Nat
  status : String
  answer : Option String
  sources : Option (List Source)
  session_id : Option String
  message : Option String
deriving DecidableEq

/-- The JSON body (plus HTTP status code) returned by
`GET /documents/status/\x7bupload_id\x7d`. -/
structure UploadStatusBody where
  status_code : Nat
  status : String
  documents_added : Option Nat
  chunks_created : Option Nat
  message : Option String
deriving DecidableEq

/-- `process_query_background` (`api/routes/chat.py`): run the RAG query
and record the terminal outcome under the request id. Returns the updated
result store and memory state. -/
def process_query_background (env : RagEnv) (st : MemoryState)
    (question session_id : String) (k : Option Int) (store : QueryStore)
    (request_id : String) : QueryStore × MemoryState :=
  match RAGService.query env st question session_id k with
  | (.ok result, st2) => (setA store request_id (.completed result), st2)
  | (.error e, st2) => (setA store request_id (.errored (errMsg e)), st2)

/-- `get_query_status` (`api/routes/chat.py`): an id absent from
`_query_results` is reported as HTTP 200 `processing`; a terminal record
is returned and deleted on first read. -/
def get_query_status (store : QueryStore) (request_id : String) :
    QueryStatusBody × QueryStore :=
  match lookupA store request_id with
  | none =>
    (⟨200, "processing", none, none, none,
      some "Query is still being processed..."⟩, store)
  | some (.completed result) =>
    (⟨200, "completed", some result.answer, some result.sources,
      some result.session_id, none⟩, eraseA store request_id)
  | some (.errored e) =>
    (⟨500, "error", none, none, none, some e⟩, eraseA store request_id)

/-- The 202 body returned by the submitting endpoints. -/
structure SubmitBody where
  status_code : Nat
  status : String
  id : Option String
  message : Option String
deriving DecidableEq

/-- The `chat` route handler: queues the background query and returns 202
with the generated request id immediately; `_query_results` is untouched
at submit time. -/
def chat_submit (request_id : String) : SubmitBody :=
  ⟨202, "processing", some request_id,
    some ("Query is being processed. Use /chat/status/\x7brequest_id\x7d " ++
      "to check progress.")⟩

/-- The `upload_file` route handler after a supported extension passed
validation (extension validation reads `settings.supported_doc_formats`
from `config.py`, which is not under `src/`, and the disk write is
elided): registers the upload id as `processing` and returns 202
immediately. -/
def upload_file_submit (store : UploadStore) (upload_id filename : String) :
    SubmitBody × UploadStore :=
  (⟨202, "processing", some upload_id,
    some ("File " ++ filename ++ " uploaded and queued for processing")⟩,
    setA store upload_id .processing)

/-- `process_file_background` (`api/routes/documents.py`): run
`DocumentService.process_file` and record the terminal outcome (the error
message truncated to 200 characters) under the upload id. -/
def process_file_background (env : FileEnv) (split : String → List String)
    (vs : VectorStore) (file_path filename : String) (use_ocr : Bool)
    (store : UploadStore) (upload_id : String) : UploadStore × VectorStore :=
  match DocumentService.process_file env split vs file_path use_ocr with
  | .ok r =>
    (setA store upload_id
      (.success 1 r.1 ("Successfully processed " ++ filename)), r.2)
  | .error e =>
    (setA store upload_id (.errored ((errMsg e).take 200)), vs)

/-- `get_upload_status` (`api/routes/documents.py`): an id absent from
`_upload_results` is reported as HTTP 404 `not_found`; a terminal record
is returned and deleted on first read; a `processing` record is reported
as such and kept. -/
def get_upload_status (store : UploadStore) (upload_id : String) :
    UploadStatusBody × UploadStore :=
  match lookupA store upload_id with
  | none =>
    (⟨404, "not_found", none, none, some "Upload ID not found"⟩, store)
  | some (.success d c m) =>
    (⟨200, "success", some d, some c, some m⟩, eraseA store upload_id)
  | some (.errored m) =>
    (⟨500, "error", none, none, some m⟩, eraseA store upload_id)
  | some .processing =>
    (⟨200, "processing", none, none,
      some "File is still being processed..."⟩, store)

/-! ## Concrete fixtures for witnesses and counterexamples -/

/-- A capability environment whose retrieval returns no documents and
whose model answers "A" (streaming: "He" then "llo", completing
normally). -/
def fixtureEnvOk : RagEnv :=
  { retrieval_top_k := 5
    similarity_search := fun _ _ => .ok []
    llm_invoke := fun _ => .ok "A"
    llm_stream := fun _ => (["He", "llo"], none) }

/-- A capability environment whose generation fails mid-stream after one
token (and whose non-streaming generation fails too). -/
def fixtureEnvMidFail : RagEnv :=
  { retrieval_top_k := 5
    similarity_search := fun _ _ => .ok []
    llm_invoke := fun _ => .error (.upstream "boom")
    llm_stream := fun _ => (["tok"], some (.upstream "boom")) }

/-- A capability environment whose retrieval itself fails. -/
def fixtureEnvSearchFail : RagEnv :=
  { retrieval_top_k := 5
    similarity_search := fun _ _ => .error (.upstream "db down")
    llm_invoke := fun _ => .error (.upstream "db down")
    llm_stream := fun _ => ([], some (.upstream "db down")) }

/-- A one-page extraction result whose page holds 10 characters (under
the scanned threshold). -/
def fixtureShortPages : List Doc :=
  [⟨"kwadimagi!", []⟩]

/-- A file environment for a PDF that exists, extracts to sparse text
(classified scanned), and whose OCR dependency `pdf2image` is missing. -/
def fixtureEnvSwallow : FileEnv :=
  { exists_file := fun _ => true
    pypdf_load := fun _ => .ok fixtureShortPages
    pdf2image_available := false
    ocr_pages := fun _ => .ok ["ocr page"]
    image_ocr := fun _ => .ok "ocr text" }

/-- A file environment for a PDF that exists, is classified scanned, and
whose OCR pipeline fails (for example `pdf2image.convert_from_path`
throwing). -/
def fixtureEnvOcrFail : FileEnv :=
  { exists_file := fun _ => true
    pypdf_load := fun _ => .ok fixtureShortPages
    pdf2image_available := true
    ocr_pages := fun _ => .error (.upstream "poppler missing")
    image_ocr := fun _ => .error (.upstream "tesseract missing") }

/-- A file environment where the file is missing and direct PDF
extraction would fail anyway. -/
def fixtureEnvNoFile : FileEnv :=
  { exists_file := fun _ => false
    pypdf_load := fun _ => .error (.upstream "unreachable")
    pdf2image_available := true
    ocr_pages := fun _ => .ok []
    image_ocr := fun _ => .error (.fileNotFound "No such file") }

/-- A file environment for a PDF whose direct extraction yields zero
pages but whose OCR pipeline works. -/
def fixtureEnvEmptyLoad : FileEnv :=
  { exists_file := fun _ => true
    pypdf_load := fun _ => .ok []
    pdf2image_available := true
    ocr_pages := fun _ => .ok ["ocr text page"]
    image_ocr := fun _ => .ok "ocr text" }

/-- A memory state holding two sessions. -/
def fixtureTwoSessions : MemoryState :=
  [("a", [⟨Role.user, "hi"⟩]), ("b", [])]

/-- A query-result store holding one completed record. -/
def fixtureQueryStore : QueryStore :=
  [("job-1", .completed ⟨"A", [], "s"⟩)]

/-- An upload-result store holding one success record. -/
def fixtureUploadStore : UploadStore :=
  [("up-1", .success 1 3 "Successfully processed scan.pdf")]

/-- Three extracted pages of fewer than 50 characters each. -/
def fixtureSparseDocs : List Doc :=
  [⟨"page one", []⟩, ⟨"page two", []⟩, ⟨"page three", []⟩]

/-- Three extracted pages of 500 characters each. -/
def fixtureDenseDocs : List Doc :=
  [⟨String.mk (List.replicate 500 'x'), []⟩,
   ⟨String.mk (List.replicate 500 'y'), []⟩,
   ⟨String.mk (List.replicate 500 'z'), []⟩]

/-! ## Helper lemmas on the dictionary model -/

theorem lookupA_append {α : Type} (l1 l2 : List (String × α)) (key : String) :
    lookupA (l1 ++ l2) key =
      match lookupA l1 key with
      | some v => some v
      | none => lookupA l2 key := by
  induction l1 with
  | nil => rfl
  | cons p rest ih =>
    by_cases h : p.1 = key
    · simp [lookupA, h]
    · simp [lookupA, h, ih]

theorem lookupA_mapSet_self {α : Type} (l : List (String × α)) (key : String)
    (v : α) :
    lookupA (l.map (fun p => if p.1 = key then (key, v) else p)) key =
      (lookupA l key).map (fun _ => v) := by
  induction l with
  | nil => rfl
  | cons p rest ih =>
    obtain ⟨k, w⟩ := p
    by_cases h : k = key
    · simp [lookupA, h]
    · simp [lookupA, h, ih]

theorem lookupA_mapSet_ne {α : Type} (l : List (String × α))
    (key key' : String) (v : α) (h : key' ≠ key) :
    lookupA (l.map (fun p => if p.1 = key then (key, v) else p)) key' =
      lookupA l key' := by
  induction l with
  | nil => rfl
  | cons p rest ih =>
    obtain ⟨k, w⟩ := p
    by_cases hp : k = key
    · subst hp
      have hk : ¬k = key' := fun hk => h hk.symm
      simp [lookupA, hk, ih]
    · by_cases hp2 : k = key'
      · subst hp2
        have hk : ¬k = key := hp
        simp [lookupA, hk]
      · simp [lookupA, hp, hp2, ih]

theorem lookupA_setA_self {α : Type} (l : List (String × α)) (key : String)
    (v : α) : lookupA (setA l key v) key = some v := by
  unfold setA
  cases h : lookupA l key with
  | some w =>
    simp only [h, Option.isSome_some, if_true]
    rw [lookupA_mapSet_self, h]
    rfl
  | none =>
    simp only [h, Option.isSome_none, Bool.false_eq_true, if_false]
    rw [lookupA_append, h]
    simp [lookupA]

theorem lookupA_setA_ne {α : Type} (l : List (String × α))
    (key key' : String) (v : α) (h : key' ≠ key) :
    lookupA (setA l key v) key' = lookupA l key' := by
  unfold setA
  cases hs : lookupA l key with
  | some w =>
    simp only [hs, Option.isSome_some, if_true]
    exact lookupA_mapSet_ne l key key' v h
  | none =>
    simp only [hs, Option.isSome_none, Bool.false_eq_true, if_false]
    rw [lookupA_append]
    have hone : lookupA [(key, v)] key' = none := by
      have hk : ¬key = key' := fun hk => h hk.symm
      simp [lookupA, hk]
    rw [hone]
    cases lookupA l key' <;> rfl

theorem lookupA_eraseA_self {α : Type} (l : List (String × α))
    (key : String) : lookupA (eraseA l key) key = none := by
  induction l with
  | nil => rfl
  | cons p rest ih =>
    obtain ⟨k, w⟩ := p
    by_cases h : k = key
    · simpa [eraseA, h] using ih
    · simpa [eraseA, lookupA, h] using ih

theorem lookupA_eraseA_ne {α : Type} (l : List (String × α))
    (key key' : String) (h : key' ≠ key) :
    lookupA (eraseA l key) key' = lookupA l key' := by
  induction l with
  | nil => rfl
  | cons p rest ih =>
    obtain ⟨k, w⟩ := p
    by_cases hp : k = key
    · subst hp
      have hne : ¬k = key' := fun hk => h hk.symm
      simpa [eraseA, lookupA, hne] using ih
    · by_cases hp2 : k = key'
      · subst hp2
        simp [eraseA, lookupA, hp]
      · simpa [eraseA, lookupA, hp, hp2] using ih

/-! ## Helper lemmas on session memory -/

theorem histOf_get_history_fst (st : MemoryState) (session_id s : String) :
    histOf (MemoryManager.get_history st session_id).1 s = histOf st s := by
  unfold MemoryManager.get_history
  cases h : lookupA st session_id with
  | some hh => rfl
  | none =>
    unfold histOf
    by_cases hs : s = session_id
    · subst hs
      rw [lookupA_setA_self, h]
      rfl
    · rw [lookupA_setA_ne _ _ _ _ hs]

theorem histOf_setAppend (st : MemoryState) (session_id : String) (m : Msg)
    (s : String) :
    histOf (setA (MemoryManager.get_history st session_id).1 session_id
        ((MemoryManager.get_history st session_id).2 ++ [m])) s =
      if s = session_id then histOf st session_id ++ [m] else histOf st s := by
  unfold MemoryManager.get_history
  cases h : lookupA st session_id with
  | some hh =>
    by_cases hs : s = session_id
    · subst hs
      unfold histOf
      rw [lookupA_setA_self]
      rw [h]
      simp
    · unfold histOf
      rw [lookupA_setA_ne _ _ _ _ hs]
      simp [hs]
  | none =>
    by_cases hs : s = session_id
    · subst hs
      unfold histOf
      rw [lookupA_setA_self]
      rw [h]
      simp
    · unfold histOf
      rw [lookupA_setA_ne _ _ _ _ hs, lookupA_setA_ne _ _ _ _ hs]
      simp [hs]

theorem histOf_add_user (st : MemoryState) (session_id message s : String) :
    histOf (MemoryManager.add_user_message st session_id message) s =
      if s = session_id then
        histOf st session_id ++ [⟨Role.user, message⟩]
      else histOf st s := by
  unfold MemoryManager.add_user_message
  exact histOf_setAppend st session_id ⟨Role.user, message⟩ s

theorem histOf_add_ai (st : MemoryState) (session_id message s : String) :
    histOf (MemoryManager.add_ai_message st session_id message) s =
      if s = session_id then
        histOf st session_id ++ [⟨Role.assistant, message⟩]
      else histOf st s := by
  unfold MemoryManager.add_ai_message
  exact histOf_setAppend st session_id ⟨Role.assistant, message⟩ s

/-! ## C8: clearAll return value -/

/-- C8, counterexample: on a store holding two sessions, the clear-all
operation of the Session Memory Store (`MemoryManager.clear_all`) does
not return the number of sessions that existed — it returns `None`
(modelled `none`), so in particular not `some 2`. -/
theorem clear_all_count_counterexample :
    (MemoryManager.clear_all fixtureTwoSessions).1 ≠ some 2 ∧
    MemoryManager.get_session_count fixtureTwoSessions = 2 := by
  exact ⟨by decide, rfl⟩

/-- C8, amended claim: `MemoryManager.clear_all` removes every session
but returns no count (`None`); the number of sessions that existed at
the moment of the call is instead read by the HTTP route
(`clear_all_memory`) before clearing and reported inside its response
message. -/
theorem clear_all_count :
    ∀ (st : MemoryState),
      (MemoryManager.clear_all st).2 = [] ∧
      (MemoryManager.clear_all st).1 = none ∧
      (clear_all_memory st).2 = [] ∧
      (clear_all_memory st).1.status = "success" ∧
      (clear_all_memory st).1.message =
        "Cleared " ++ toString (MemoryManager.get_session_count st) ++
          " session histories" := by
  intro st
  exact ⟨rfl, rfl, rfl, rfl, rfl⟩

/-! ## C10: k = None and k = 0 fall back to the configured default -/

/-- C10: in both `RAGService.query` and `RAGService.query_stream` the
caller-supplied `k` passes through Python `or`
(`k = k or self.settings.retrieval_top_k`), so `None` and `0` are
silently replaced by the configured default before retrieval while any
non-zero value is honored: replacing `k` by its effective value never
changes either function's behavior. -/
theorem effective_k_fallback :
    ∀ (env : RagEnv) (st : MemoryState) (question session_id : String)
      (k : Option Int) (d n : Int),
      pyOrInt none d = d ∧
      pyOrInt (some 0) d = d ∧
      pyOrInt (some n) d = (if n = 0 then d else n) ∧
      RAGService.query env st question session_id k =
        RAGService.query env st question session_id
          (some (pyOrInt k env.retrieval_top_k)) ∧
      RAGService.query_stream env st question session_id k =
        RAGService.query_stream env st question session_id
          (some (pyOrInt k env.retrieval_top_k)) := by
  intro env st question session_id k d n
  have hk : pyOrInt (some (pyOrInt k env.retrieval_top_k))
      env.retrieval_top_k = pyOrInt k env.retrieval_top_k := by
    cases k with
    | none => simp [pyOrInt]
    | some m =>
      by_cases hm : m = 0 <;> simp [pyOrInt, hm]
  refine ⟨rfl, rfl, rfl, ?_, ?_⟩
  · unfold RAGService.query
    rw [hk]
  · unfold RAGService.query_stream
    rw [hk]

/-! ## C1: background-job single consumption -/

/-- C1, counterexample: on the background *query* status surface
(`get_query_status`), an unknown request id is answered with HTTP 200
and status "processing" — not with a NotFound signal — while the upload
surface answers the same situation with HTTP 404. -/
theorem job_status_notfound_counterexample :
    (get_query_status [] "job-404").1.status = "processing" ∧
    (get_query_status [] "job-404").1.status_code = 200 ∧
    (get_upload_status [] "job-404").1.status_code = 404 ∧
    "processing" ≠ "not_found" := by
  exact ⟨rfl, rfl, rfl, by decide⟩

/-- C1, amended claim: submission returns a job id immediately on both
surfaces; on first read of a terminal state the entry is removed on both
surfaces; but only the background *upload* status endpoint reports an
unknown or already-consumed id as NotFound (HTTP 404 `not_found`) — the
background *query* status endpoint reports such ids as HTTP 200
`processing`, indistinguishable from in-flight work. -/
theorem job_single_consumption :
    ∀ (qstore : QueryStore) (ustore : UploadStore) (id : String)
      (r : QueryResult) (m : String) (d c : Nat),
      (lookupA qstore id = some (.completed r) →
        (get_query_status qstore id).1 =
          ⟨200, "completed", some r.answer, some r.sources,
            some r.session_id, none⟩ ∧
        lookupA (get_query_status qstore id).2 id = none) ∧
      (lookupA qstore id = some (.errored m) →
        (get_query_status qstore id).1 =
          ⟨500, "error", none, none, none, some m⟩ ∧
        lookupA (get_query_status qstore id).2 id = none) ∧
      (lookupA qstore id = none →
        (get_query_status qstore id).1 =
          ⟨200, "processing", none, none, none,
            some "Query is still being processed..."⟩ ∧
        (get_query_status qstore id).2 = qstore) ∧
      (lookupA ustore id = none →
        (get_upload_status ustore id).1 =
          ⟨404, "not_found", none, none, some "Upload ID not found"⟩ ∧
        (get_upload_status ustore id).2 = ustore) ∧
      (lookupA ustore id = some (.success d c m) →
        (get_upload_status ustore id).1 =
          ⟨200, "success", some d, some c, some m⟩ ∧
        lookupA (get_upload_status ustore id).2 id = none) ∧
      (lookupA ustore id = some (.errored m) →
        (get_upload_status ustore id).1 =
          ⟨500, "error", none, none, some m⟩ ∧
        lookupA (get_upload_status ustore id).2 id = none) ∧
      (chat_submit id).status_code = 202 ∧
      (chat_submit id).id = some id ∧
      (upload_file_submit ustore id m).1.status_code = 202 ∧
      (upload_file_submit ustore id m).1.id = some id ∧
      lookupA (upload_file_submit ustore id m).2 id = some .processing := by
  intro qstore ustore id r m d c
  refine ⟨?_, ?_, ?_, ?_, ?_, ?_, rfl, rfl, rfl, rfl, ?_⟩
  · intro h
    unfold get_query_status
    rw [h]
    exact ⟨rfl, lookupA_eraseA_self qstore id⟩
  · intro h
    unfold get_query_status
    rw [h]
    exact ⟨rfl, lookupA_eraseA_self qstore id⟩
  · intro h
    unfold get_query_status
    rw [h]
    exact ⟨rfl, rfl⟩
  · intro h
    unfold get_upload_status
    rw [h]
    exact ⟨rfl, rfl⟩
  · intro h
    unfold get_upload_status
    rw [h]
    exact ⟨rfl, lookupA_eraseA_self ustore id⟩
  · intro h
    unfold get_upload_status
    rw [h]
    exact ⟨rfl, lookupA_eraseA_self ustore id⟩
  · unfold upload_file_submit
    exact lookupA_setA_self ustore id .processing

/-- C1, witness: a completed query job and a successful upload job are
each consumed by their first status read; the second read of the query
surface reports `processing` (HTTP 200) while the second read of the
upload surface reports HTTP 404. -/
theorem job_single_consumption_witness :
    (get_query_status fixtureQueryStore "job-1").1.status = "completed" ∧
    (get_query_status
      (get_query_status fixtureQueryStore "job-1").2 "job-1").1.status_code
        = 200 ∧
    (get_query_status
      (get_query_status fixtureQueryStore "job-1").2 "job-1").1.status
        = "processing" ∧
    (get_upload_status fixtureUploadStore "up-1").1.status = "success" ∧
    (get_upload_status
      (get_upload_status fixtureUploadStore "up-1").2 "up-1").1.status_code
        = 404 := by
  have h1 := (job_single_consumption fixtureQueryStore fixtureUploadStore
    "job-1" ⟨"A", [], "s"⟩ "" 0 0).1 (by decide)
  have h2 := ((job_single_consumption
    (get_query_status fixtureQueryStore "job-1").2 fixtureUploadStore
    "job-1" ⟨"A", [], "s"⟩ "" 0 0).2.2.1) h1.2
  have h3 := ((job_single_consumption fixtureQueryStore fixtureUploadStore
    "up-1" ⟨"A", [], "s"⟩ "Successfully processed scan.pdf" 1 3).2.2.2.2.1)
    (by decide)
  have h4 := ((job_single_consumption fixtureQueryStore
    (get_upload_status fixtureUploadStore "up-1").2 "up-1" ⟨"A", [], "s"⟩
    "" 0 0).2.2.2.1) h3.2
  refine ⟨?_, ?_, ?_, ?_, ?_⟩
  · rw [h1.1]
  · rw [h2.1]
  · rw [h2.1]
  · rw [h3.1]
  · rw [h4.1]

/-! ## C2: non-streaming query memory atomicity -/

/-- C2: if `RAGService.query` succeeds with answer `A`, the session
transcript afterwards is the prior transcript followed by exactly
`user:Q` then `assistant:A`; if it fails at any fallible step (retrieval
or generation — history read and prompt assembly are total), no
transcript is modified (at most the empty session entry is lazily
created by the history read, which leaves every transcript unchanged). -/
theorem query_memory_atomicity :
    ∀ (env : RagEnv) (st : MemoryState) (question session_id : String)
      (k : Option Int),
      (∀ r : QueryResult,
        (RAGService.query env st question session_id k).1 = .ok r →
        histOf (RAGService.query env st question session_id k).2 session_id =
          histOf st session_id ++
            [⟨Role.user, question⟩, ⟨Role.assistant, r.answer⟩]) ∧
      (∀ e : Err,
        (RAGService.query env st question session_id k).1 = .error e →
        ∀ s, histOf (RAGService.query env st question session_id k).2 s =
          histOf st s) := by
  intro env st question session_id k
  cases hS : env.similarity_search question (pyOrInt k env.retrieval_top_k) with
  | error e0 =>
    constructor
    · intro r hr
      simp [RAGService.query, hS] at hr
    · intro e he s
      simp [RAGService.query, hS]
  | ok docs =>
    cases hL : env.llm_invoke (format_messages (format_docs docs)
        (MemoryManager.get_history st session_id).2 question) with
    | error e0 =>
      constructor
      · intro r hr
        simp [RAGService.query, hS, hL] at hr
      · intro e he s
        simp [RAGService.query, hS, hL, histOf_get_history_fst]
    | ok answer =>
      constructor
      · intro r hr
        simp [RAGService.query, hS, hL] at hr
        subst hr
        simp [RAGService.query, hS, hL, histOf_add_ai, histOf_add_user,
          histOf_get_history_fst]
      · intro e he
        simp [RAGService.query, hS, hL] at he

/-- C2, witness: with retrieval returning no documents and the model
answering "A", a query on the empty memory store leaves session "s" with
exactly `[user:Q, assistant:A]`. -/
theorem query_memory_atomicity_witness :
    (RAGService.query fixtureEnvOk [] "Q" "s" none).1 =
      .ok ⟨"A", [], "s"⟩ ∧
    histOf (RAGService.query fixtureEnvOk [] "Q" "s" none).2 "s" =
      [⟨Role.user, "Q"⟩, ⟨Role.assistant, "A"⟩] := by
  have h := (query_memory_atomicity fixtureEnvOk [] "Q" "s" none).1
    ⟨"A", [], "s"⟩ rfl
  exact ⟨rfl, h⟩

/-! ## Helper lemmas on stream traces -/

theorem streamTokens_map_token (ts : List String) (m : MemoryState) :
    streamTokens (ts.map (fun t => ((StreamEvent.token t : StreamEvent), m)))
      = ts := by
  induction ts with
  | nil => rfl
  | cons t rest ih => simpa [streamTokens] using ih

theorem streamTokens_append (a b : List (StreamEvent × MemoryState)) :
    streamTokens (a ++ b) = streamTokens a ++ streamTokens b := by
  simp [streamTokens, List.filterMap_append]

theorem filter_isTerminal_map_token (ts : List String) :
    (ts.map (fun t => (StreamEvent.token t : StreamEvent))).filter isTerminal
      = [] := by
  induction ts with
  | nil => rfl
  | cons t rest ih => simp [isTerminal, ih]

theorem streamTokens_cons_sources (srcs : List Source) (sid : String)
    (m : MemoryState) (rest : List (StreamEvent × MemoryState)) :
    streamTokens ((StreamEvent.sources srcs sid, m) :: rest) =
      streamTokens rest := by
  simp [streamTokens]

theorem streamTokens_done_singleton (sid : String) (m : MemoryState) :
    streamTokens [(StreamEvent.done sid, m)] = [] := rfl

theorem streamTokens_error_singleton (msg : String) (m : MemoryState) :
    streamTokens [(StreamEvent.error msg, m)] = [] := rfl

theorem lastOfConcat {α : Type} (l : List α) (a : α) :
    (l ++ [a]).getLast? = some a := by
  induction l with
  | nil => rfl
  | cons x rest ih =>
    rw [List.cons_append, List.getLast?_cons]
    rw [ih]
    cases rest <;> rfl

theorem lastOfConsConcat {α : Type} (x : α) (l : List α) (a : α) :
    (x :: (l ++ [a])).getLast? = some a := by
  rw [show x :: (l ++ [a]) = (x :: l) ++ [a] from rfl]
  exact lastOfConcat _ _

theorem lastOfConsPair {α : Type} (x : α) (l : List α) (a b : α) :
    (x :: (l ++ [a, b])).getLast? = some b := by
  have h2 : x :: (l ++ [a, b]) = (x :: (l ++ [a])) ++ [b] := by simp
  rw [h2]
  exact lastOfConcat _ _

/-! ## C3: streaming memory update ordering -/

/-- C3: in `RAGService.query_stream`, every `done` event is emitted at a
memory state in which the session transcript has already been extended
with the user question and then the concatenation of every emitted token
in emission order (so `done` can never precede the memory update); and
whenever the generator fails (escaping exception), an `error` event
carrying the exception message is part of the emitted trace and no
session transcript is modified. -/
theorem stream_memory_ordering :
    ∀ (env : RagEnv) (st : MemoryState) (question session_id : String)
      (k : Option Int),
      (∀ (sid2 : String) (s : MemoryState),
        ((StreamEvent.done sid2, s)) ∈
            (RAGService.query_stream env st question session_id k).1 →
        histOf s session_id = histOf st session_id ++
          [⟨Role.user, question⟩,
           ⟨Role.assistant, String.join (streamTokens
             (RAGService.query_stream env st question session_id k).1)⟩]) ∧
      (∀ e : Err,
        (RAGService.query_stream env st question session_id k).2.2 = some e →
        (∃ s, ((StreamEvent.error (errMsg e), s)) ∈
            (RAGService.query_stream env st question session_id k).1) ∧
        ∀ s2, histOf
            (RAGService.query_stream env st question session_id k).2.1 s2 =
          histOf st s2) := by
  intro env st question session_id k
  cases hS : env.similarity_search question (pyOrInt k env.retrieval_top_k) with
  | error e0 =>
    constructor
    · intro sid2 s hmem
      simp [RAGService.query_stream, hS] at hmem
    · intro e he
      simp [RAGService.query_stream, hS] at he
      subst he
      constructor
      · exact ⟨st, by simp [RAGService.query_stream, hS]⟩
      · intro s2
        simp [RAGService.query_stream, hS]
  | ok docs =>
    cases hM : (env.llm_stream (format_messages (format_docs docs)
        (MemoryManager.get_history st session_id).2 question)).2 with
    | some e0 =>
      constructor
      · intro sid2 s hmem
        simp [RAGService.query_stream, hS, hM] at hmem
      · intro e he
        simp [RAGService.query_stream, hS, hM] at he
        subst he
        constructor
        · exact ⟨(MemoryManager.get_history st session_id).1,
            by simp [RAGService.query_stream, hS, hM]⟩
        · intro s2
          simp [RAGService.query_stream, hS, hM, histOf_get_history_fst]
    | none =>
      constructor
      · intro sid2 s hmem
        simp [RAGService.query_stream, hS, hM] at hmem
        obtain ⟨hsid2, hs⟩ := hmem
        subst hs
        simp [RAGService.query_stream, hS, hM, histOf_add_ai,
          histOf_add_user, histOf_get_history_fst, streamTokens_cons_sources,
          streamTokens_append, streamTokens_map_token,
          streamTokens_done_singleton]
      · intro e he
        simp [RAGService.query_stream, hS, hM] at he

/-- C3, witness: with a stream emitting "He" then "llo" and completing,
the `done` event is emitted at a state whose transcript for "s" is
`[user:Q, assistant:Hello]`; with a stream failing after one token, the
escape carries the exception, an `error` event is in the trace, and the
transcript of "s" stays empty. -/
theorem stream_memory_ordering_witness :
    ((StreamEvent.done "s",
        ([("s", [⟨Role.user, "Q"⟩, ⟨Role.assistant, "Hello"⟩])] :
          MemoryState)) ∈
      (RAGService.query_stream fixtureEnvOk [] "Q" "s" none).1) ∧
    histOf ([("s", [⟨Role.user, "Q"⟩, ⟨Role.assistant, "Hello"⟩])] :
        MemoryState) "s" =
      [⟨Role.user, "Q"⟩, ⟨Role.assistant, "Hello"⟩] ∧
    (RAGService.query_stream fixtureEnvMidFail [] "Q" "s" none).2.2 =
      some (.upstream "boom") ∧
    (∃ s, ((StreamEvent.error "boom", s)) ∈
      (RAGService.query_stream fixtureEnvMidFail [] "Q" "s" none).1) ∧
    histOf (RAGService.query_stream fixtureEnvMidFail [] "Q" "s" none).2.1
      "s" = [] := by
  have hd := (stream_memory_ordering fixtureEnvOk [] "Q" "s" none).1 "s"
    [("s", [⟨Role.user, "Q"⟩, ⟨Role.assistant, "Hello"⟩])] (by decide)
  have he := (stream_memory_ordering fixtureEnvMidFail [] "Q" "s" none).2
    (.upstream "boom") rfl
  refine ⟨by decide, hd.trans (by decide), rfl, he.1, he.2 "s"⟩

/-! ## C6: event shape delivered by the streaming route -/

/-- C6, counterexample: a mid-stream generation failure yields TWO
`error` events on the wire — one yielded by `RAGService.query_stream`
before it re-raises, and a second one appended by the `chat_stream`
route wrapper when it catches the re-raised exception — so the delivered
sequence does not end in exactly one terminal event. -/
theorem stream_double_error_counterexample :
    chat_stream_events fixtureEnvMidFail [] "q" "s" none =
      [.sources [] "s", .token "tok", .error "boom", .error "boom"] ∧
    countTerminal (chat_stream_events fixtureEnvMidFail [] "q" "s" none)
      = 2 := by
  exact ⟨by decide, by decide⟩

/-- C6, amended claim: on a successful stream the route delivers exactly
the `sources` event first, then one `token` event per emitted token in
emission order, then exactly one terminal event — the final `done`; when
retrieval fails, the delivered sequence is exactly the service
generator's `error` event followed by the route wrapper's duplicate
`error` (no `sources` event); when generation fails mid-stream, the
delivery is `sources`, the tokens emitted before the failure, the
service's `error` event, then the route wrapper's duplicate `error`; in
every failing run the wire sequence is the service generator's emitted
events followed by one route-appended `error` event. -/
theorem stream_terminal_events :
    ∀ (env : RagEnv) (st : MemoryState) (question session_id : String)
      (k : Option Int),
      (∀ docs : List Doc,
        env.similarity_search question (pyOrInt k env.retrieval_top_k) =
          .ok docs →
        (env.llm_stream (format_messages (format_docs docs)
          (MemoryManager.get_history st session_id).2 question)).2 = none →
        chat_stream_events env st question session_id k =
          StreamEvent.sources
              (docs.map (fun d => ⟨d.page_content, d.metadata⟩))
              session_id ::
            (env.llm_stream (format_messages (format_docs docs)
                (MemoryManager.get_history st session_id).2 question)).1.map
              (fun t => StreamEvent.token t) ++
            [StreamEvent.done session_id]) ∧
      (∀ e : Err,
        env.similarity_search question (pyOrInt k env.retrieval_top_k) =
          .error e →
        chat_stream_events env st question session_id k =
          [StreamEvent.error (errMsg e), StreamEvent.error (errMsg e)]) ∧
      (∀ (docs : List Doc) (e : Err),
        env.similarity_search question (pyOrInt k env.retrieval_top_k) =
          .ok docs →
        (env.llm_stream (format_messages (format_docs docs)
          (MemoryManager.get_history st session_id).2 question)).2 =
            some e →
        chat_stream_events env st question session_id k =
          StreamEvent.sources
              (docs.map (fun d => ⟨d.page_content, d.metadata⟩))
              session_id ::
            (env.llm_stream (format_messages (format_docs docs)
                (MemoryManager.get_history st session_id).2 question)).1.map
              (fun t => StreamEvent.token t) ++
            [StreamEvent.error (errMsg e), StreamEvent.error (errMsg e)]) ∧
      (∀ e : Err,
        (RAGService.query_stream env st question session_id k).2.2 = some e →
        chat_stream_events env st question session_id k =
          (RAGService.query_stream env st question session_id k).1.map
            Prod.fst ++ [StreamEvent.error (errMsg e)]) ∧
      ((RAGService.query_stream env st question session_id k).2.2 = none →
        countTerminal (chat_stream_events env st question session_id k) = 1 ∧
        (chat_stream_events env st question session_id k).getLast? =
          some (.done session_id)) ∧
      (∀ e : Err,
        (RAGService.query_stream env st question session_id k).2.2 = some e →
        countTerminal (chat_stream_events env st question session_id k) = 2 ∧
        (chat_stream_events env st question session_id k).getLast? =
          some (.error (errMsg e))) := by
  intro env st question session_id k
  refine ⟨?_, ?_, ?_, ?_, ?_, ?_⟩
  · intro docs hS hM
    simp [chat_stream_events, RAGService.query_stream, hS, hM,
      List.map_map, Function.comp]
  · intro e hS
    simp [chat_stream_events, RAGService.query_stream, hS]
  · intro docs e hS hM
    simp [chat_stream_events, RAGService.query_stream, hS, hM,
      List.map_map, Function.comp]
  · intro e he
    cases hS : env.similarity_search question
        (pyOrInt k env.retrieval_top_k) with
    | error e0 =>
      simp [RAGService.query_stream, hS] at he
      subst he
      simp [chat_stream_events, RAGService.query_stream, hS]
    | ok docs =>
      cases hM : (env.llm_stream (format_messages (format_docs docs)
          (MemoryManager.get_history st session_id).2 question)).2 with
      | some e0 =>
        simp [RAGService.query_stream, hS, hM] at he
        subst he
        simp [chat_stream_events, RAGService.query_stream, hS, hM]
      | none =>
        simp [RAGService.query_stream, hS, hM] at he
  · intro he
    cases hS : env.similarity_search question
        (pyOrInt k env.retrieval_top_k) with
    | error e0 =>
      simp [RAGService.query_stream, hS] at he
    | ok docs =>
      cases hM : (env.llm_stream (format_messages (format_docs docs)
          (MemoryManager.get_history st session_id).2 question)).2 with
      | some e0 =>
        simp [RAGService.query_stream, hS, hM] at he
      | none =>
        constructor
        · simp [chat_stream_events, RAGService.query_stream, hS, hM,
            countTerminal, isTerminal, List.filter_append,
            filter_isTerminal_map_token, List.map_map, Function.comp]
        · simp [chat_stream_events, RAGService.query_stream, hS, hM,
            lastOfConsConcat]
  · intro e he
    cases hS : env.similarity_search question
        (pyOrInt k env.retrieval_top_k) with
    | error e0 =>
      simp [RAGService.query_stream, hS] at he
      subst he
      constructor
      · simp [chat_stream_events, RAGService.query_stream, hS,
          countTerminal, isTerminal]
      · simp [chat_stream_events, RAGService.query_stream, hS]
    | ok docs =>
      cases hM : (env.llm_stream (format_messages (format_docs docs)
          (MemoryManager.get_history st session_id).2 question)).2 with
      | some e0 =>
        simp [RAGService.query_stream, hS, hM] at he
        subst he
        constructor
        · simp [chat_stream_events, RAGService.query_stream, hS, hM,
            countTerminal, isTerminal, List.filter_append,
            filter_isTerminal_map_token, List.map_map, Function.comp]
        · simp [chat_stream_events, RAGService.query_stream, hS, hM,
            lastOfConsPair]
      | none =>
        simp [RAGService.query_stream, hS, hM] at he

/-- C6, witness: with retrieval succeeding over an empty index and the
model emitting "He" then "llo", the route delivers exactly
`[sources, token, token, done]` — one terminal event, `done` last; with
retrieval failing, exactly the service `error` followed by the route's
duplicate; with generation failing mid-stream, exactly `sources`, the
emitted token, the service `error`, and the route's duplicate, which is
also the service trace plus one appended `error`. -/
theorem stream_terminal_events_witness :
    chat_stream_events fixtureEnvOk [] "q" "s" none =
      [.sources [] "s", .token "He", .token "llo", .done "s"] ∧
    countTerminal (chat_stream_events fixtureEnvOk [] "q" "s" none) = 1 ∧
    (chat_stream_events fixtureEnvOk [] "q" "s" none).getLast? =
      some (.done "s") ∧
    chat_stream_events fixtureEnvSearchFail [] "q" "s" none =
      [.error "db down", .error "db down"] ∧
    countTerminal (chat_stream_events fixtureEnvSearchFail [] "q" "s" none)
      = 2 ∧
    (chat_stream_events fixtureEnvSearchFail [] "q" "s" none).getLast? =
      some (.error "db down") ∧
    chat_stream_events fixtureEnvMidFail [] "q2" "s2" none =
      [.sources [] "s2", .token "tok", .error "boom", .error "boom"] ∧
    chat_stream_events fixtureEnvMidFail [] "q2" "s2" none =
      (RAGService.query_stream fixtureEnvMidFail [] "q2" "s2" none).1.map
        Prod.fst ++ [.error "boom"] := by
  have h1 := (stream_terminal_events fixtureEnvOk [] "q" "s" none).1 [] rfl rfl
  have h2 := (stream_terminal_events fixtureEnvSearchFail [] "q" "s"
    none).2.1 (.upstream "db down") rfl
  have h3 := (stream_terminal_events fixtureEnvOk [] "q" "s"
    none).2.2.2.2.1 rfl
  have h4 := (stream_terminal_events fixtureEnvSearchFail [] "q" "s"
    none).2.2.2.2.2 (.upstream "db down") rfl
  have h5 := (stream_terminal_events fixtureEnvMidFail [] "q2" "s2"
    none).2.2.1 [] (.upstream "boom") rfl rfl
  have h6 := (stream_terminal_events fixtureEnvMidFail [] "q2" "s2"
    none).2.2.2.1 (.upstream "boom") rfl
  exact ⟨h1.trans (by decide), h3.1, h3.2, h2, h4.1, h4.2,
    h5.trans (by decide), h6⟩

/-! ## C4: scanned-PDF OCR fallback heuristic -/

/-- C4: after a direct extraction yielding at least one page, the PDF is
re-processed through OCR exactly when OCR is forced or the average
extracted-text length over the first `min(3, pageCount)` pages is
strictly below 100 characters; a 3-page PDF with under 50 characters per
page is classified scanned, a 3-page PDF with 500 or more characters per
page is not. -/
theorem scanned_pdf_heuristic :
    ∀ (use_ocr : Bool) (documents : List Doc),
      (documents ≠ [] →
        ((use_ocr || PDFProcessor.is_scanned_pdf documents) = true ↔
          (use_ocr = true ∨
            ((documents.take (min 3 documents.length)).map
                (fun d => (d.page_content.length : ℚ))).sum /
              ((documents.take (min 3 documents.length)).length : ℚ)
                < 100))) ∧
      (∀ (env : FileEnv) (path : String) (docs2 : List Doc),
        env.exists_file path = true → env.pypdf_load path = .ok docs2 →
        ((use_ocr || PDFProcessor.is_scanned_pdf docs2) = true →
          PDFProcessor.extract_text_from_pdf env path use_ocr =
            Except.map (addPdfMetadata path)
              (PDFProcessor.process_with_ocr env path)) ∧
        ((use_ocr || PDFProcessor.is_scanned_pdf docs2) = false →
          PDFProcessor.extract_text_from_pdf env path use_ocr =
            .ok (addPdfMetadata path docs2))) ∧
      (documents.length = 3 →
        (∀ d ∈ documents, d.page_content.length < 50) →
        PDFProcessor.is_scanned_pdf documents = true) ∧
      (documents.length = 3 →
        (∀ d ∈ documents, 500 ≤ d.page_content.length) →
        PDFProcessor.is_scanned_pdf documents = false) := by
  intro use_ocr documents
  refine ⟨?_, ?_, ?_, ?_⟩
  · intro h
    simp [PDFProcessor.is_scanned_pdf, List.isEmpty_iff, h]
  · intro env path docs2 hex hload
    constructor
    · intro hcond
      cases hp : PDFProcessor.process_with_ocr env path with
      | error e =>
        simp [PDFProcessor.extract_text_from_pdf, hex, hload, hcond, hp,
          Except.map]
      | ok ds =>
        simp [PDFProcessor.extract_text_from_pdf, hex, hload, hcond, hp,
          Except.map]
    · intro hcond
      simp [PDFProcessor.extract_text_from_pdf, hex, hload, hcond]
  · intro hlen hlt
    obtain ⟨a, b, c, rfl⟩ := List.length_eq_three.mp hlen
    have ha : (a.page_content.length : ℚ) < 50 := by
      exact_mod_cast hlt a (by simp)
    have hb : (b.page_content.length : ℚ) < 50 := by
      exact_mod_cast hlt b (by simp)
    have hc : (c.page_content.length : ℚ) < 50 := by
      exact_mod_cast hlt c (by simp)
    simp [PDFProcessor.is_scanned_pdf]
    rw [div_lt_iff₀ (by norm_num : (0 : ℚ) < 3)]
    linarith
  · intro hlen hge
    obtain ⟨a, b, c, rfl⟩ := List.length_eq_three.mp hlen
    have ha : (500 : ℚ) ≤ (a.page_content.length : ℚ) := by
      exact_mod_cast hge a (by simp)
    have hb : (500 : ℚ) ≤ (b.page_content.length : ℚ) := by
      exact_mod_cast hge b (by simp)
    have hc : (500 : ℚ) ≤ (c.page_content.length : ℚ) := by
      exact_mod_cast hge c (by simp)
    simp [PDFProcessor.is_scanned_pdf]
    rw [le_div_iff₀ (by norm_num : (0 : ℚ) < 3)]
    linarith

set_option maxRecDepth 8000 in
/-- C4, witness: three pages of 8 to 10 characters trigger the scanned
classification, three pages of 500 characters do not, and with OCR
forced the extraction routes through OCR (here surfacing the OCR
pipeline's own failure). -/
theorem scanned_pdf_heuristic_witness :
    PDFProcessor.is_scanned_pdf fixtureSparseDocs = true ∧
    PDFProcessor.is_scanned_pdf fixtureDenseDocs = false ∧
    PDFProcessor.extract_text_from_pdf fixtureEnvOcrFail "scan.pdf" true =
      .error (.upstream "poppler missing") := by
  have h1 := (scanned_pdf_heuristic false fixtureSparseDocs).2.2.1 rfl
    (by decide)
  have h2 := (scanned_pdf_heuristic false fixtureDenseDocs).2.2.2 rfl
    (by decide)
  have h3 := ((scanned_pdf_heuristic true fixtureSparseDocs).2.1
    fixtureEnvOcrFail "scan.pdf" fixtureShortPages rfl rfl).1 rfl
  exact ⟨h1, h2, h3.trans rfl⟩

/-! ## C9: zero extracted pages never divide by zero -/

/-- C9: `_is_scanned_pdf` classifies an empty page list as scanned
before the average is formed, so the average-length divisor
(`len(sample_pages)`) is positive in every case that reaches it, and a
PDF whose direct extraction yields zero pages proceeds down the OCR
path. -/
theorem empty_extraction_ocr_path :
    ∀ (documents : List Doc) (env : FileEnv) (path : String)
      (use_ocr : Bool),
      (documents = [] → PDFProcessor.is_scanned_pdf documents = true) ∧
      (documents ≠ [] →
        0 < (documents.take (min 3 documents.length)).length) ∧
      (env.exists_file path = true → env.pypdf_load path = .ok [] →
        PDFProcessor.extract_text_from_pdf env path use_ocr =
          Except.map (addPdfMetadata path)
            (PDFProcessor.process_with_ocr env path)) := by
  intro documents env path use_ocr
  refine ⟨?_, ?_, ?_⟩
  · intro h
    subst h
    rfl
  · intro h
    have hpos := List.length_pos.mpr h
    simp [List.length_take]
    omega
  · intro hex hload
    cases hp : PDFProcessor.process_with_ocr env path with
    | error e =>
      simp [PDFProcessor.extract_text_from_pdf, hex, hload, hp,
        PDFProcessor.is_scanned_pdf, Except.map]
    | ok ds =>
      simp [PDFProcessor.extract_text_from_pdf, hex, hload, hp,
        PDFProcessor.is_scanned_pdf, Except.map]

/-- C9, witness: on a PDF whose direct extraction yields zero pages the
classification is scanned and extraction follows the OCR path, here
succeeding with the single OCR page. -/
theorem empty_extraction_ocr_path_witness :
    PDFProcessor.is_scanned_pdf [] = true ∧
    0 < ((fixtureSparseDocs.take (min 3 fixtureSparseDocs.length)).length) ∧
    PDFProcessor.extract_text_from_pdf fixtureEnvEmptyLoad "empty.pdf" false
      = Except.map (addPdfMetadata "empty.pdf")
          (PDFProcessor.process_with_ocr fixtureEnvEmptyLoad "empty.pdf") := by
  refine ⟨(empty_extraction_ocr_path [] fixtureEnvEmptyLoad "empty.pdf"
    false).1 rfl, ?_, ?_⟩
  · exact (empty_extraction_ocr_path fixtureSparseDocs fixtureEnvEmptyLoad
      "empty.pdf" false).2.1 (by decide)
  · exact (empty_extraction_ocr_path [] fixtureEnvEmptyLoad "empty.pdf"
      false).2.2 rfl rfl

/-! ## C5: chunk count returned by ingestion -/

/-- C5, counterexample: `DocumentService.add_texts` never runs the
service-level Chunker and returns the number of input texts: on the
single boundary-free 10-character text and a Chunker with `chunkSize=5`,
`overlap=0`, the Chunker produces 2 chunks while `add_texts` reports 1
and hands the text to the vector store unsplit. -/
theorem add_texts_count_counterexample :
    DocumentService.add_texts [] ["aaaaaaaaaa"] none =
      (1, [⟨"aaaaaaaaaa", []⟩]) ∧
    (windowSplit 5 0 "aaaaaaaaaa").length = 2 ∧
    (split_documents (windowSplit 5 0) [⟨"aaaaaaaaaa", []⟩]).length = 2 ∧
    (1 : Nat) ≠ 2 := by
  exact ⟨by decide, by decide, by decide, by decide⟩

/-- C5, amended claim: `process_documents` (used by the file ingestion
path) runs the Chunker over every document, inserts exactly the
resulting chunks, and returns their count; but the add-texts surface
(`DocumentService.add_texts`) bypasses the service-level Chunker
entirely, passes the raw texts to the vector store, and returns the
number of input texts rather than a chunk count. -/
theorem chunks_created_count :
    ∀ (split : String → List String) (vs : VectorStore)
      (documents : List Doc) (texts : List String)
      (metadatas : Option (List Metadata)),
      (DocumentService.process_documents split vs documents).1 =
        (split_documents split documents).length ∧
      (DocumentService.process_documents split vs documents).2 =
        vs ++ split_documents split documents ∧
      (DocumentService.add_texts vs texts metadatas).1 = texts.length ∧
      (DocumentService.add_texts vs texts metadatas).2 =
        VectorStoreManager.add_texts vs texts metadatas := by
  intro split vs documents texts metadatas
  exact ⟨rfl, rfl, rfl, rfl⟩

/-! ## C7: file ingestion failure modes -/

/-- C7, counterexample: a PDF that exists and is classified scanned, on
a host where the `pdf2image` dependency is missing, is processed to a
*successful* result with zero chunks — the `ImportError` is swallowed
inside `_process_with_ocr` ("Falling back to empty documents") instead
of being propagated as an extraction failure. -/
theorem ocr_dependency_swallowed_counterexample :
    fixtureEnvSwallow.pdf2image_available = false ∧
    PDFProcessor.is_scanned_pdf fixtureShortPages = true ∧
    DocumentService.process_file fixtureEnvSwallow (windowSplit 5 0) []
      "scan.pdf" false = .ok (0, []) := by
  have h10 : ("kwadimagi!".length : ℚ) = 10 := by
    norm_num [show "kwadimagi!".length = 10 from by decide]
  have hscan : PDFProcessor.is_scanned_pdf fixtureShortPages = true := by
    simp [PDFProcessor.is_scanned_pdf, fixtureShortPages, h10]
    norm_num
  have hext : lowerString (pathSuffix "scan.pdf") = ".pdf" := by decide
  refine ⟨rfl, hscan, ?_⟩
  simp [DocumentService.process_file, hext,
    PDFProcessor.process_pdf_to_documents,
    PDFProcessor.extract_text_from_pdf, PDFProcessor.process_with_ocr,
    fixtureEnvSwallow, hscan, addPdfMetadata,
    DocumentService.process_documents, split_documents,
    VectorStoreManager.add_documents]

/-- C7, amended claim: a missing PDF file fails with `FileNotFoundError`;
an unrecognized extension fails with `ValueError` (UnsupportedFormat);
failures of the PDF loader, of the OCR page pipeline, and of the image
OCR engine propagate to the caller with their cause intact; but a
missing `pdf2image` dependency on the OCR path is swallowed and the
operation silently succeeds with zero extracted pages and zero chunks. -/
theorem process_file_failure_modes :
    ∀ (env : FileEnv) (split : String → List String) (vs : VectorStore)
      (path : String) (use_ocr : Bool) (e : Err) (docs2 : List Doc),
      (lowerString (pathSuffix path) = ".pdf" →
        env.exists_file path = false →
        DocumentService.process_file env split vs path use_ocr =
          .error (.fileNotFound ("PDF file not found: " ++ path))) ∧
      (lowerString (pathSuffix path) ≠ ".pdf" →
        [".png", ".jpg", ".jpeg", ".tiff", ".bmp"].contains
            (lowerString (pathSuffix path)) = false →
        DocumentService.process_file env split vs path use_ocr =
          .error (.valueError
            ("Unsupported file type: " ++ lowerString (pathSuffix path)))) ∧
      (lowerString (pathSuffix path) = ".pdf" →
        env.exists_file path = true →
        env.pypdf_load path = .error e →
        DocumentService.process_file env split vs path use_ocr =
          .error e) ∧
      (lowerString (pathSuffix path) = ".pdf" →
        env.exists_file path = true →
        env.pypdf_load path = .ok docs2 →
        (use_ocr || PDFProcessor.is_scanned_pdf docs2) = true →
        env.pdf2image_available = true →
        env.ocr_pages path = .error e →
        DocumentService.process_file env split vs path use_ocr =
          .error e) ∧
      (lowerString (pathSuffix path) = ".pdf" →
        env.exists_file path = true →
        env.pypdf_load path = .ok docs2 →
        (use_ocr || PDFProcessor.is_scanned_pdf docs2) = true →
        env.pdf2image_available = false →
        DocumentService.process_file env split vs path use_ocr =
          .ok (0, vs)) ∧
      (lowerString (pathSuffix path) ≠ ".pdf" →
        [".png", ".jpg", ".jpeg", ".tiff", ".bmp"].contains
            (lowerString (pathSuffix path)) = true →
        env.image_ocr path = .error e →
        DocumentService.process_file env split vs path use_ocr =
          .error e) := by
  intro env split vs path use_ocr e docs2
  refine ⟨?_, ?_, ?_, ?_, ?_, ?_⟩
  · intro hext hex
    simp [DocumentService.process_file, hext,
      PDFProcessor.process_pdf_to_documents,
      PDFProcessor.extract_text_from_pdf, hex]
  · intro hext hcontains
    simp at hcontains
    obtain ⟨h1, h2, h3, h4, h5⟩ := hcontains
    simp [DocumentService.process_file, hext, h1, h2, h3, h4, h5]
  · intro hext hex hload
    simp [DocumentService.process_file, hext,
      PDFProcessor.process_pdf_to_documents,
      PDFProcessor.extract_text_from_pdf, hex, hload]
  · intro hext hex hload hcond havail hocr
    simp [DocumentService.process_file, hext,
      PDFProcessor.process_pdf_to_documents,
      PDFProcessor.extract_text_from_pdf, hex, hload, hcond,
      PDFProcessor.process_with_ocr, havail, hocr]
  · intro hext hex hload hcond havail
    simp [DocumentService.process_file, hext,
      PDFProcessor.process_pdf_to_documents,
      PDFProcessor.extract_text_from_pdf, hex, hload, hcond,
      PDFProcessor.process_with_ocr, havail, addPdfMetadata,
      DocumentService.process_documents, split_documents,
      VectorStoreManager.add_documents]
  · intro hext hcontains himg
    simp at hcontains
    rcases hcontains with hc | hc | hc | hc | hc <;>
      simp [DocumentService.process_file, hext, hc,
        OCRProcessor.process_image_to_document,
        OCRProcessor.extract_text_from_image, OCRProcessor.is_supported,
        OCRProcessor.supported_formats, himg]

/-- C7, witness: a missing PDF yields `FileNotFoundError`; a `.txt` file
yields `ValueError`; a scanned PDF with the OCR dependency missing
silently succeeds with zero chunks; a failing image OCR engine
propagates its error. -/
theorem process_file_failure_modes_witness :
    DocumentService.process_file fixtureEnvNoFile (windowSplit 5 0) []
      "missing.pdf" false =
      .error (.fileNotFound "PDF file not found: missing.pdf") ∧
    DocumentService.process_file fixtureEnvNoFile (windowSplit 5 0) []
      "notes.txt" false =
      .error (.valueError "Unsupported file type: .txt") ∧
    DocumentService.process_file fixtureEnvSwallow (windowSplit 5 0) []
      "scan.pdf" true = .ok (0, []) ∧
    DocumentService.process_file fixtureEnvOcrFail (windowSplit 5 0) []
      "pic.png" false = .error (.upstream "tesseract missing") := by
  have h1 := (process_file_failure_modes fixtureEnvNoFile (windowSplit 5 0)
    [] "missing.pdf" false (.upstream "x") []).1 (by decide) rfl
  have h2 := (process_file_failure_modes fixtureEnvNoFile (windowSplit 5 0)
    [] "notes.txt" false (.upstream "x") []).2.1 (by decide) (by decide)
  have h3 := (process_file_failure_modes fixtureEnvSwallow (windowSplit 5 0)
    [] "scan.pdf" true (.upstream "x")
    fixtureShortPages).2.2.2.2.1 (by decide) rfl rfl rfl rfl
  have h4 := (process_file_failure_modes fixtureEnvOcrFail (windowSplit 5 0)
    [] "pic.png" false (.upstream "tesseract missing") []).2.2.2.2.2
    (by decide) (by decide) rfl
  exact ⟨h1, h2, h3, h4⟩
